import Mathlib

/-!
Verification of the answer alignment and scoring engine of the automated
homework grading repository (src/automated_grading_system.py and
src/template_builder.py), shallowly embedded in Lean.

Modelling conventions:
* Python floats are modelled as exact rationals (ℚ).
* Python character classes are modelled over the alphabets this repository
  actually manipulates: ASCII plus CJK unified ideographs.  Python's Unicode
  word class is modelled as ASCII alphanumerics, underscore and CJK
  ideographs; Python whitespace is modelled as ASCII whitespace.
* Fallible Python code (exceptions) is modelled with Except/Option.
-/

namespace GradingSys

set_option allowUnsafeReducibility true
attribute [semireducible] Rat.add Rat.sub Rat.mul Rat.inv Rat.ofScientific

set_option maxRecDepth 100000

/-- ASCII whitespace, modelling the whitespace Python strips and the class
matched by the whitespace regex in the inputs handled here. -/
def isSpaceChar (c : Char) : Bool :=
  c == ' ' || c == '\t' || c == '\n' || c == '\r' || c == '\x0b' || c == '\x0c'

/-- CJK unified ideograph: the script of the repository's question markers. -/
def isCJK (c : Char) : Bool :=
  0x4E00 ≤ c.val && c.val ≤ 0x9FFF

/-- Word character of the cleanup regex in clean_text (ASCII alphanumeric,
underscore, or CJK ideograph). -/
def isWordChar (c : Char) : Bool :=
  c.isAlphanum || c == '_' || isCJK c

/-- The symbol whitelist shared by the cleanup regex and the answer-shape
class: period, minus, plus, equals, colon, slash and the six brackets. -/
def isKeptSymbol (c : Char) : Bool :=
  c == '.' || c == '-' || c == '+' || c == '=' || c == ':' || c == '/' ||
  c == '(' || c == ')' || c == '[' || c == ']' || c == '\x7b' || c == '\x7d'

/-- Strip ASCII whitespace from both ends of a character list (str.strip). -/
def pyStripChars (l : List Char) : List Char :=
  ((l.dropWhile isSpaceChar).reverse.dropWhile isSpaceChar).reverse

/-- HomeworkGradingSystem._clean_text: delete every character outside the
word/whitespace/symbol whitelist, then strip surrounding whitespace. -/
def clean_text (s : String) : String :=
  ⟨pyStripChars (s.data.filter fun c => isWordChar c || isSpaceChar c || isKeptSymbol c)⟩

/-- Python substring containment: needle in hay. -/
def containsSub (hay needle : List Char) : Bool :=
  (List.range (hay.length + 1)).any fun k => needle.isPrefixOf (hay.drop k)

/-- The fixed question-marker substrings of _is_question_text. -/
def question_indicators : List String :=
  ["填空", "解比例", "应用题", "拓展题", "基础练习", "提高练习"]

/-- HomeworkGradingSystem._is_question_text. -/
def is_question_text (s : String) : Bool :=
  question_indicators.any fun ind => containsSub s.data ind.data

/-- Character class of the pure-symbolic branch of _looks_like_answer:
digits plus the symbol whitelist. -/
def isAnswerSymbol (c : Char) : Bool :=
  c.isDigit || isKeptSymbol c

/-- HomeworkGradingSystem._looks_like_answer (length bound 10). -/
def looks_like_answer (s : String) : Bool :=
  (!s.data.isEmpty && s.data.all isAnswerSymbol) ||
  (s.length ≤ 10 && s.data.any Char.isDigit)

/-! ## Data model -/

/-- Question dataclass. -/
structure Question where
  question_id : String
  question_text : String
  expected_answer : String
  answer_type : String
  points : ℚ
  tolerance : ℚ := 1/10
  partial_credit : Bool := true
  deriving DecidableEq, Repr, Inhabited

/-- StudentAnswer dataclass. -/
structure StudentAnswer where
  question_id : String
  extracted_text : String
  confidence_score : ℚ
  bounding_box : List ℤ
  is_handwritten : Bool := true
  deriving DecidableEq, Repr, Inhabited

/-- One per-question grading record (the dict built by grade_answer). -/
structure QuestionResult where
  question_id : String
  expected_answer : String
  student_answer : String
  confidence_score : ℚ
  points_earned : ℚ
  max_points : ℚ
  is_correct : Bool
  feedback : List String
  deriving DecidableEq, Repr, Inhabited

/-- GradingResult dataclass. -/
structure GradingResult where
  student_id : String
  total_score : ℚ
  max_score : ℚ
  question_results : List QuestionResult
  overall_accuracy : ℚ
  feedback : List String
  deriving DecidableEq, Repr

/-- The OCR input record: three parallel sequences. -/
structure OcrResult where
  rec_texts : List String
  rec_scores : List ℚ
  rec_boxes : List (List ℤ)
  deriving DecidableEq, Repr

/-- A template is an insertion-ordered mapping from question id to
Question (Python dict with unique keys). -/
abbrev Template := List (String × Question)

/-! ## Numeric extraction: re.findall of digits-and-dots runs, Python float -/

/-- Member of the class of digits and the period. -/
def isNumChar (c : Char) : Bool :=
  c.isDigit || c == '.'

/-- First maximal run of digits-and-dots characters (the head of the
re.findall result for that class), none when no such character occurs. -/
def firstNumRun : List Char → Option (List Char)
  | [] => none
  | c :: rest =>
    if isNumChar c then some (c :: rest.takeWhile isNumChar)
    else firstNumRun rest

/-- Decimal value of a digit list. -/
def digitsVal (l : List Char) : ℕ :=
  l.foldl (fun n c => 10 * n + (c.toNat - 48)) 0

/-- Python float() applied to a digits-and-dots run: accepted exactly when
the run holds at most one period and at least one digit (so "7", "7.", ".5"
parse and ".", "", "1.2.3" raise ValueError); floats are modelled exactly
as rationals. -/
def pyFloatOfRun (run : List Char) : Option ℚ :=
  if run.count '.' ≤ 1 ∧ run.any Char.isDigit then
    some ((digitsVal (run.takeWhile fun c => c ≠ '.') : ℚ) +
      (digitsVal ((run.dropWhile fun c => c ≠ '.').drop 1) : ℚ) /
        10 ^ ((run.dropWhile fun c => c ≠ '.').drop 1).length)
  else none

/-- The number the numeric grader works with: the first digits-and-dots run
of the text, parsed by Python float semantics. -/
def parseFirstNumber (s : String) : Option ℚ :=
  (firstNumRun s.data).bind pyFloatOfRun

/-- Modelled from the spec's words (for comparison with the code): the first
substring matching the pattern of one digit run optionally followed by a
period and a second digit run, parsed as a real number. -/
def specFirstNumGo : List Char → Option ℚ
  | [] => none
  | c :: rest =>
    if c.isDigit then
      some
        (match rest.dropWhile Char.isDigit with
        | '.' :: r3 =>
          if (r3.takeWhile Char.isDigit).isEmpty then
            (digitsVal (c :: rest.takeWhile Char.isDigit) : ℚ)
          else
            (digitsVal (c :: rest.takeWhile Char.isDigit) : ℚ) +
              (digitsVal (r3.takeWhile Char.isDigit) : ℚ) /
                10 ^ (r3.takeWhile Char.isDigit).length
        | _ => (digitsVal (c :: rest.takeWhile Char.isDigit) : ℚ))
    else specFirstNumGo rest

/-- Spec-described numeric extraction over a string. -/
def specFirstNumber (s : String) : Option ℚ :=
  specFirstNumGo s.data

/-! ## difflib.SequenceMatcher.ratio (Ratcliff/Obershelp) -/

/-- Length of the common prefix of two character lists. -/
def commonPrefixLen : List Char → List Char → ℕ
  | a :: as, b :: bs => if a = b then commonPrefixLen as bs + 1 else 0
  | _, _ => 0

theorem commonPrefixLen_le_left : ∀ a b : List Char, commonPrefixLen a b ≤ a.length
  | a :: as, b :: bs => by
    rw [commonPrefixLen]
    split
    · exact Nat.succ_le_succ (commonPrefixLen_le_left as bs)
    · exact Nat.zero_le _
  | [], _ => Nat.le_refl _
  | _ :: _, [] => Nat.zero_le _

theorem commonPrefixLen_le_right : ∀ a b : List Char, commonPrefixLen a b ≤ b.length
  | a :: as, b :: bs => by
    rw [commonPrefixLen]
    split
    · exact Nat.succ_le_succ (commonPrefixLen_le_right as bs)
    · exact Nat.zero_le _
  | [], _ => Nat.zero_le _
  | _ :: _, [] => Nat.le_refl _

/-- find_longest_match over the whole strings: scan every pair of start
positions in increasing order, keep the first triple of maximal length
(so ties resolve to the smallest start in the first string, then in the
second, as in difflib). -/
def bestMatch (a b : List Char) : ℕ × ℕ × ℕ :=
  (List.range a.length).foldl
    (fun best i =>
      (List.range b.length).foldl
        (fun best j =>
          if best.2.2 < commonPrefixLen (a.drop i) (b.drop j) then
            (i, j, commonPrefixLen (a.drop i) (b.drop j))
          else best)
        best)
    (0, 0, 0)

theorem foldl_preserve {α β : Type} {P : β → Prop} (f : β → α → β) :
    ∀ (l : List α) (b : β), P b → (∀ x y, P x → P (f x y)) → P (l.foldl f b) := by
  intro l
  induction l with
  | nil => intro b hb _; exact hb
  | cons a l ih => intro b hb hf; exact ih _ (hf _ _ hb) hf

theorem bestMatch_bounds (a b : List Char) :
    (bestMatch a b).1 + (bestMatch a b).2.2 ≤ a.length ∧
    (bestMatch a b).2.1 + (bestMatch a b).2.2 ≤ b.length := by
  unfold bestMatch
  apply foldl_preserve (P := fun t : ℕ × ℕ × ℕ =>
    t.1 + t.2.2 ≤ a.length ∧ t.2.1 + t.2.2 ≤ b.length)
  · exact ⟨Nat.zero_le _, Nat.zero_le _⟩
  · intro x i hx
    apply foldl_preserve (P := fun t : ℕ × ℕ × ℕ =>
      t.1 + t.2.2 ≤ a.length ∧ t.2.1 + t.2.2 ≤ b.length)
    · exact hx
    · intro y j hy
      dsimp only
      split
      · rename_i hlt
        have h1 := commonPrefixLen_le_left (a.drop i) (b.drop j)
        have h2 := commonPrefixLen_le_right (a.drop i) (b.drop j)
        rw [List.length_drop] at h1 h2
        constructor <;> dsimp only <;> omega
      · exact hy

/-- Total size of all matching blocks (the recursive divide-and-conquer of
get_matching_blocks): take the longest match, recurse left and right.  The
recursion is driven by a fuel argument so that it is structural (and hence
evaluates inside the kernel); every recursive call strictly shrinks the
combined length, so any fuel of at least that combined length computes the
true value (totalMatchedFuel_eq below). -/
def totalMatchedFuel : ℕ → List Char → List Char → ℕ
  | 0, _, _ => 0
  | fuel + 1, a, b =>
    if (bestMatch a b).2.2 = 0 then 0
    else
      totalMatchedFuel fuel (a.take (bestMatch a b).1) (b.take (bestMatch a b).2.1) +
        (bestMatch a b).2.2 +
        totalMatchedFuel fuel (a.drop ((bestMatch a b).1 + (bestMatch a b).2.2))
          (b.drop ((bestMatch a b).2.1 + (bestMatch a b).2.2))

/-- Total matched size with the canonical sufficient fuel. -/
def totalMatched (a b : List Char) : ℕ :=
  totalMatchedFuel (a.length + b.length) a b

theorem totalMatchedFuel_eq :
    ∀ (fuel : ℕ) (a b : List Char), a.length + b.length ≤ fuel →
      totalMatchedFuel fuel a b = totalMatched a b := by
  intro fuel
  induction fuel using Nat.strong_induction_on with
  | _ fuel ih =>
    intro a b hab
    rw [totalMatched]
    cases fuel with
    | zero =>
      have h0 : a.length + b.length = 0 := by omega
      rw [h0]
    | succ fuel =>
      have hbd := bestMatch_bounds a b
      by_cases h0 : a.length + b.length = 0
      · have hk : (bestMatch a b).2.2 = 0 := by omega
        rw [h0]
        simp only [totalMatchedFuel]
        rw [if_pos hk]
      · obtain ⟨m, hm⟩ : ∃ m, a.length + b.length = m + 1 :=
          ⟨a.length + b.length - 1, by omega⟩
        rw [hm]
        simp only [totalMatchedFuel]
        by_cases hk : (bestMatch a b).2.2 = 0
        · rw [if_pos hk, if_pos hk]
        · rw [if_neg hk, if_neg hk]
          have hfm : m ≤ fuel := by omega
          have hL : (a.take (bestMatch a b).1).length +
              (b.take (bestMatch a b).2.1).length ≤ m := by
            simp only [List.length_take]
            omega
          have hR : (a.drop ((bestMatch a b).1 + (bestMatch a b).2.2)).length +
              (b.drop ((bestMatch a b).2.1 + (bestMatch a b).2.2)).length ≤ m := by
            simp only [List.length_drop]
            omega
          have e1 := ih fuel (Nat.lt_succ_self _)
            (a.take (bestMatch a b).1) (b.take (bestMatch a b).2.1)
            (le_trans hL hfm)
          have e2 := ih m (by omega)
            (a.take (bestMatch a b).1) (b.take (bestMatch a b).2.1) hL
          have e3 := ih fuel (Nat.lt_succ_self _)
            (a.drop ((bestMatch a b).1 + (bestMatch a b).2.2))
            (b.drop ((bestMatch a b).2.1 + (bestMatch a b).2.2))
            (le_trans hR hfm)
          have e4 := ih m (by omega)
            (a.drop ((bestMatch a b).1 + (bestMatch a b).2.2))
            (b.drop ((bestMatch a b).2.1 + (bestMatch a b).2.2)) hR
          rw [e1, e2, e3, e4]

/-- SequenceMatcher(None, a, b).ratio(): twice the matched size over the
total length, and 1 when both strings are empty.  (difflib's autojunk
popularity heuristic, active only when the second string has at least 200
characters, is not modelled; all strings this repository compares are far
shorter.) -/
def pyRatio (a b : List Char) : ℚ :=
  if a.length + b.length = 0 then 1
  else (2 * totalMatched a b : ℚ) / (a.length + b.length : ℚ)

/-! ## Candidate extraction (extract_answers_from_ocr) -/

/-- The synthesized candidate id answer_i. -/
def answerId (i : ℕ) : String :=
  "answer_" ++ toString i

/-- The per-fragment body of the extraction loop: clean, reject short or
question-marker text, accept what looks like an answer. -/
def candidate_of (i : ℕ) (text : String) (score : ℚ) (box : List ℤ) :
    Option StudentAnswer :=
  let cleaned := clean_text text
  if cleaned.length < 2 ∨ is_question_text cleaned = true then none
  else if looks_like_answer cleaned then
    some { question_id := answerId i, extracted_text := cleaned,
           confidence_score := score, bounding_box := box, is_handwritten := true }
  else none

/-- HomeworkGradingSystem.extract_answers_from_ocr: zip the three parallel
sequences (truncating to the shortest, as Python zip does), enumerate, and
keep the fragments accepted by the filter. -/
def extract_answers_from_ocr (ocr : OcrResult) : List StudentAnswer :=
  ((ocr.rec_texts.zip (ocr.rec_scores.zip ocr.rec_boxes)).enum).filterMap
    fun p => candidate_of p.1 p.2.1 p.2.2.1 p.2.2.2

/-! ## Alignment (align_answers_with_questions) -/

/-- Top coordinate of a bounding box: index 1 of the four-integer box. -/
def boxTop (a : StudentAnswer) : ℤ :=
  a.bounding_box.getD 1 0

/-- Comparison key of the sort: vertical position, top to bottom. -/
def topLe (a b : StudentAnswer) : Prop :=
  boxTop a ≤ boxTop b

instance : DecidableRel topLe :=
  fun a b => inferInstanceAs (Decidable (boxTop a ≤ boxTop b))

/-- HomeworkGradingSystem.align_answers_with_questions: sort candidates by
the top coordinate (Python sorted is a stable sort by the key, modelled by
the stable insertionSort), then pair the i-th template question id with the
i-th sorted candidate; zip drops whichever side is longer. -/
def align_answers_with_questions (answers : List StudentAnswer)
    (template : Template) : List (String × StudentAnswer) :=
  (template.map Prod.fst).zip (answers.insertionSort topLe)

/-! ## Scoring (grade_answer and the per-type graders) -/

/-- The result dict as grade_answer initializes it. -/
def init_result (ans : StudentAnswer) (q : Question) : QuestionResult :=
  { question_id := q.question_id
    expected_answer := q.expected_answer
    student_answer := ans.extracted_text
    confidence_score := ans.confidence_score
    points_earned := 0
    max_points := q.points
    is_correct := false
    feedback := [] }

/-- Feedback line reporting both numeric values.  Python formats the floats
with str; the exact textual float rendering is approximated by the rational
rendering, which no claim depends on. -/
def expectedGotMsg (ev sv : ℚ) : String :=
  "Expected " ++ toString ev ++ ", got " ++ toString sv

/-- Feedback line holding a similarity ratio.  Python formats the ratio with
two decimals; the rendering is approximated by the rational rendering, which
no claim depends on. -/
def ratioMsg (head : String) (r : ℚ) : String :=
  head ++ toString r ++ ")"

/-- HomeworkGradingSystem._grade_numeric_answer: take the first
digits-and-dots run of each side; no run on the student side reports "No
numeric answer found"; a ValueError parsing either side, or an IndexError
from an expected answer with no run, reports "Could not parse numeric
answer"; otherwise compare under the tolerance. -/
def grade_numeric_answer (ans : StudentAnswer) (q : Question)
    (r : QuestionResult) : QuestionResult :=
  match firstNumRun ans.extracted_text.data with
  | none => { r with feedback := r.feedback ++ ["No numeric answer found"] }
  | some srun =>
    match pyFloatOfRun srun with
    | none => { r with feedback := r.feedback ++ ["Could not parse numeric answer"] }
    | some sv =>
      match firstNumRun q.expected_answer.data with
      | none => { r with feedback := r.feedback ++ ["Could not parse numeric answer"] }
      | some erun =>
        match pyFloatOfRun erun with
        | none => { r with feedback := r.feedback ++ ["Could not parse numeric answer"] }
        | some ev =>
          if |sv - ev| ≤ q.tolerance then
            { r with is_correct := true, points_earned := q.points,
                     feedback := r.feedback ++ ["Correct!"] }
          else
            { r with feedback := r.feedback ++ [expectedGotMsg ev sv] }

/-- HomeworkGradingSystem._normalize_formula: lowercase, remove whitespace,
map the multiplication and division glyphs to asterisk and slash. -/
def normalize_formula (s : String) : String :=
  ⟨((s.data.map Char.toLower).filter fun c => !isSpaceChar c).map
    fun c => if c = '×' then '*' else if c = '÷' then '/' else c⟩

/-- HomeworkGradingSystem._grade_formula_answer. -/
def grade_formula_answer (ans : StudentAnswer) (q : Question)
    (r : QuestionResult) : QuestionResult :=
  let similarity := pyRatio (normalize_formula ans.extracted_text).data
    (normalize_formula q.expected_answer).data
  if 4/5 ≤ similarity then
    { r with is_correct := true, points_earned := q.points,
             feedback := r.feedback ++ ["Correct formula!"] }
  else if 3/5 ≤ similarity ∧ q.partial_credit = true then
    { r with points_earned := q.points * (1/2),
             feedback := r.feedback ++ [ratioMsg "Partially correct (similarity: " similarity] }
  else
    { r with feedback := r.feedback ++ [ratioMsg "Formula doesn't match (similarity: " similarity] }

/-- HomeworkGradingSystem._grade_text_answer. -/
def grade_text_answer (ans : StudentAnswer) (q : Question)
    (r : QuestionResult) : QuestionResult :=
  let similarity := pyRatio (ans.extracted_text.data.map Char.toLower)
    (q.expected_answer.data.map Char.toLower)
  if 4/5 ≤ similarity then
    { r with is_correct := true, points_earned := q.points,
             feedback := r.feedback ++ ["Correct answer!"] }
  else if 3/5 ≤ similarity ∧ q.partial_credit = true then
    { r with points_earned := q.points * (1/2),
             feedback := r.feedback ++ [ratioMsg "Partially correct (similarity: " similarity] }
  else
    { r with feedback := r.feedback ++ [ratioMsg "Answer doesn't match (similarity: " similarity] }

/-- HomeworkGradingSystem._grade_general_answer. -/
def grade_general_answer (ans : StudentAnswer) (q : Question)
    (r : QuestionResult) : QuestionResult :=
  let similarity := pyRatio ans.extracted_text.data q.expected_answer.data
  let r1 :=
    if 4/5 ≤ similarity then
      { r with is_correct := true, points_earned := q.points }
    else if 3/5 ≤ similarity ∧ q.partial_credit = true then
      { r with points_earned := q.points * (1/2) }
    else r
  { r1 with feedback := r1.feedback ++ [ratioMsg "Similarity score: " similarity] }

/-- HomeworkGradingSystem.grade_answer: initialize the result record, then
dispatch on the answer type. -/
def grade_answer (ans : StudentAnswer) (q : Question) : QuestionResult :=
  let r := init_result ans q
  if q.answer_type = "numeric" then grade_numeric_answer ans q r
  else if q.answer_type = "formula" then grade_formula_answer ans q r
  else if q.answer_type = "text" then grade_text_answer ans q r
  else grade_general_answer ans q r

/-! ## Whole-homework grading (grade_homework) -/

/-- The sentinel result for a question with no aligned candidate. -/
def no_answer_result (qid : String) (q : Question) : QuestionResult :=
  { question_id := qid
    expected_answer := q.expected_answer
    student_answer := "No answer found"
    confidence_score := 0
    points_earned := 0
    max_points := q.points
    is_correct := false
    feedback := ["No answer detected"] }

/-- Summary feedback line one (score and accuracy; the one-decimal and
percentage formatting of Python is approximated by rational rendering). -/
def scoreLineMsg (total maxScore acc : ℚ) : String :=
  "Score: " ++ toString total ++ "/" ++ toString maxScore ++ " (" ++ toString acc ++ ")"

/-- Summary feedback line two. -/
def correctLineMsg (correct total : ℕ) : String :=
  "Correct answers: " ++ toString correct ++ "/" ++ toString total

/-- HomeworkGradingSystem.grade_homework with a loaded template: extract,
align, grade each template question (sentinel when unmatched), total up. -/
def grade_homework (template : Template) (student_id : String)
    (ocr : OcrResult) : GradingResult :=
  let answers := extract_answers_from_ocr ocr
  let aligned := align_answers_with_questions answers template
  let qrs := template.map fun p =>
    match aligned.lookup p.1 with
    | some ans => grade_answer ans p.2
    | none => no_answer_result p.1 p.2
  let total := (qrs.map QuestionResult.points_earned).sum
  let maxScore := (template.map fun p => p.2.points).sum
  let acc := if 0 < maxScore then total / maxScore else 0
  { student_id := student_id
    total_score := total
    max_score := maxScore
    question_results := qrs
    overall_accuracy := acc
    feedback := [scoreLineMsg total maxScore acc,
                 correctLineMsg (qrs.filter fun qr => qr.is_correct).length qrs.length] }

/-- grade_homework as called through the instance: raises ValueError when no
template is loaded. -/
def grade_homework_e (template : Option Template) (student_id : String)
    (ocr : OcrResult) : Except String GradingResult :=
  match template with
  | none => .error "ValueError: Template not loaded. Please load teacher's answer key first."
  | some t => .ok (grade_homework t student_id ocr)

/-! ## Batch grading (batch_grade) -/

/-- Delete every occurrence of a pattern from a character list
(str.replace with an empty replacement). -/
def removeSubAll (pat : List Char) : List Char → List Char
  | [] => []
  | c :: rest =>
    if pat ≠ [] ∧ pat.isPrefixOf (c :: rest) then
      removeSubAll pat (rest.drop (pat.length - 1))
    else c :: removeSubAll pat rest
termination_by l => l.length
decreasing_by
  all_goals simp only [List.length_drop, List.length_cons]
  all_goals omega

/-- student_id from the file stem: stem.replace with the _res suffix pattern. -/
def studentIdOfStem (stem : String) : String :=
  ⟨removeSubAll "_res".data stem.data⟩

/-- The body of one batch iteration over a globbed file stem, with the load
outcome supplied as data (file reading is the out-of-scope persistence
layer): skip teacher files whose name holds hw_1, skip (after logging) any
student whose load or grading raises, otherwise keep the result. -/
def grade_one_file (template : Option Template)
    (file : String × Except String OcrResult) : Option GradingResult :=
  if containsSub file.1.data "hw_1".data then none
  else
    match file.2 with
    | .error _ => none
    | .ok ocr =>
      match grade_homework_e template (studentIdOfStem file.1) ocr with
      | .error _ => none
      | .ok r => some r

/-- HomeworkGradingSystem.batch_grade: fold the per-file body over the
globbed stems, appending each successful result. -/
def batch_grade (template : Option Template)
    (files : List (String × Except String OcrResult)) : List GradingResult :=
  files.foldl
    (fun results file =>
      match grade_one_file template file with
      | none => results
      | some r => results ++ [r])
    []

/-! ## TemplateBuilder (template_builder.py)

The TemplateBuilder class reuses the same text cleanup.  Its methods are
prefixed tb_ here.  One call in its extraction passes has no target: the
class defines no _is_question_text method and has no base class, so that
call raises AttributeError at run time; it is modelled as an error value. -/

/-- TemplateBuilder._clean_text (the same cleanup as clean_text). -/
def tb_clean_text (s : String) : String :=
  ⟨pyStripChars (s.data.filter fun c => isWordChar c || isSpaceChar c || isKeptSymbol c)⟩

/-- Section-header substrings of TemplateBuilder._is_section_header. -/
def tb_section_indicators : List String :=
  ["基础练习", "提高练习", "拓展练习"]

/-- TemplateBuilder._is_section_header. -/
def tb_is_section_header (s : String) : Bool :=
  tb_section_indicators.any fun ind => containsSub s.data ind.data

/-- TemplateBuilder._extract_section_name. -/
def tb_extract_section_name (s : String) : String :=
  if containsSub s.data "基础练习".data then "基础练习"
  else if containsSub s.data "提高练习".data then "提高练习"
  else if containsSub s.data "拓展练习".data then "拓展练习"
  else "未知"

/-- First pass of extract_template_from_ocr: the current_section cursor
after walking every fragment (the last section header wins; none when no
header occurs).  The current_question cursor is also advanced there but
never read afterwards, so it is not modelled. -/
def tb_first_pass_section (texts : List String) : Option String :=
  texts.foldl
    (fun cur text =>
      let cleaned := tb_clean_text text
      if tb_is_section_header cleaned then some (tb_extract_section_name cleaned)
      else cur)
    none

/-- The missing method: TemplateBuilder defines no _is_question_text (and
has no base class), so self._is_question_text raises AttributeError. -/
def tb_is_question_text (_s : String) : Except String Bool :=
  .error "AttributeError: TemplateBuilder object has no attribute _is_question_text"

/-- re.search of the first answer pattern, a digit run optionally followed
by a period and a second digit run, returning the matched text. -/
def tb_search_number : List Char → Option (List Char)
  | [] => none
  | c :: rest =>
    if c.isDigit then
      some
        (match rest.dropWhile Char.isDigit with
        | '.' :: r3 =>
          if (r3.takeWhile Char.isDigit).isEmpty then c :: rest.takeWhile Char.isDigit
          else (c :: rest.takeWhile Char.isDigit) ++ '.' :: r3.takeWhile Char.isDigit
        | _ => c :: rest.takeWhile Char.isDigit)
    else tb_search_number rest

/-- Leftmost re.search over a match-at-a-position function. -/
def tb_search_at (matchAt : List Char → Option (List Char)) :
    List Char → Option (List Char)
  | [] => none
  | c :: rest =>
    match matchAt (c :: rest) with
    | some m => some m
    | none => tb_search_at matchAt rest

/-- Match at one position for the second answer pattern: x or X, optional
whitespace, equals sign, optional whitespace, a digits-and-dots run. -/
def tb_match_xeq_at (l : List Char) : Option (List Char) :=
  match l with
  | [] => none
  | c :: rest =>
    if c = 'x' ∨ c = 'X' then
      match rest.dropWhile isSpaceChar with
      | '=' :: r2 =>
        if ((r2.dropWhile isSpaceChar).takeWhile isNumChar).isEmpty then none
        else some (c :: rest.takeWhile isSpaceChar ++ '=' :: r2.takeWhile isSpaceChar ++
          (r2.dropWhile isSpaceChar).takeWhile isNumChar)
      | _ => none
    else none

/-- Match at one position for the third answer pattern: a digits-and-dots
run, optional whitespace, colon, optional whitespace, a second run. -/
def tb_match_ratio_at (l : List Char) : Option (List Char) :=
  if (l.takeWhile isNumChar).isEmpty then none
  else
    match (l.dropWhile isNumChar).dropWhile isSpaceChar with
    | ':' :: r2 =>
      if ((r2.dropWhile isSpaceChar).takeWhile isNumChar).isEmpty then none
      else some (l.takeWhile isNumChar ++ (l.dropWhile isNumChar).takeWhile isSpaceChar ++
        ':' :: r2.takeWhile isSpaceChar ++ (r2.dropWhile isSpaceChar).takeWhile isNumChar)
    | _ => none

/-- Match at one position for the fourth answer pattern, the fixed Chinese
two-clause answer shape. -/
def tb_match_text_ans_at (l : List Char) : Option (List Char) :=
  match l with
  | '甲' :: c1 :: r1 =>
    if c1 = '：' ∨ c1 = ':' then
      if (r1.takeWhile Char.isDigit).isEmpty then none
      else
        match r1.dropWhile Char.isDigit with
        | '袋' :: c2 :: r2 =>
          if c2 = '，' ∨ c2 = ',' then
            match (r2.dropWhile isSpaceChar) with
            | '乙' :: c3 :: r3 =>
              if c3 = '：' ∨ c3 = ':' then
                if (r3.takeWhile Char.isDigit).isEmpty then none
                else
                  match r3.dropWhile Char.isDigit with
                  | '袋' :: _ =>
                    some ('甲' :: c1 :: r1.takeWhile Char.isDigit ++ '袋' :: c2 ::
                      r2.takeWhile isSpaceChar ++ '乙' :: c3 ::
                      r3.takeWhile Char.isDigit ++ ['袋'])
                  | _ => none
              else none
            | _ => none
          else none
        | _ => none
    else none
  | _ => none

/-- The ordered answer_patterns scan: the first pattern whose search
succeeds fixes the captured answer text. -/
def tb_first_pattern_match (l : List Char) : Option (List Char) :=
  match tb_search_number l with
  | some m => some m
  | none =>
    match tb_search_at tb_match_xeq_at l with
    | some m => some m
    | none =>
      match tb_search_at tb_match_ratio_at l with
      | some m => some m
      | none => tb_search_at tb_match_text_ans_at l

/-- TemplateBuilder._determine_answer_type. -/
def tb_determine_answer_type (s : String) : String :=
  if !s.data.isEmpty && s.data.all isNumChar then "numeric"
  else if s.data.any fun c =>
      c == '=' || c == ':' || c == '+' || c == '-' || c == '×' || c == '÷' then "formula"
  else "text"

/-- TemplateBuilder._estimate_points (the section cursor may be unset). -/
def tb_estimate_points (sectionOpt : Option String) (_question : String) : ℚ :=
  match sectionOpt with
  | some s =>
    if s = "基础练习" then 2
    else if s = "提高练习" then 4
    else if s = "拓展练习" then 6
    else 3
  | none => 3

/-- The synthesized template key for fragment index i. -/
def qKey (i : ℕ) : String :=
  "Q" ++ toString (i + 1)

/-- The synthesized question label for fragment index i. -/
def qLabel (i : ℕ) : String :=
  "Question " ++ toString (i + 1)

/-- TemplateBuilder._looks_like_answer (length bound 15). -/
def tb_looks_like_answer (s : String) : Bool :=
  (!s.data.isEmpty && s.data.all isAnswerSymbol) ||
  (s.length ≤ 15 && s.data.any Char.isDigit)

/-- Second pass of extract_template_from_ocr: each fragment is cleaned,
then self._is_question_text is evaluated - which raises - before the length
test and the pattern scan could run. -/
def tb_second_pass (sectionOpt : Option String)
    (frags : List (ℕ × (String × (ℚ × List ℤ)))) : Except String Template :=
  frags.foldlM
    (fun acc frag => do
      let cleaned := tb_clean_text frag.2.1
      let isQ ← tb_is_question_text cleaned
      if isQ = true ∨ cleaned.length < 1 then pure acc
      else
        match tb_first_pattern_match cleaned.data with
        | none => pure acc
        | some m =>
          pure (acc ++ [(qKey frag.1,
            { question_id := qKey frag.1
              question_text := qLabel frag.1
              expected_answer := (⟨m⟩ : String)
              answer_type := tb_determine_answer_type ⟨m⟩
              points := tb_estimate_points sectionOpt (toString frag.1) })]))
    []

/-- TemplateBuilder._fallback_answer_extraction: the length test short
circuits, so fragments longer than 20 are skipped before the raising
self._is_question_text call is reached. -/
def tb_fallback_answer_extraction (frags : List (ℕ × (String × (ℚ × List ℤ)))) :
    Except String Template :=
  frags.foldlM
    (fun acc frag => do
      let cleaned := tb_clean_text frag.2.1
      if 20 < cleaned.length then pure acc
      else do
        let isQ ← tb_is_question_text cleaned
        if isQ = true then pure acc
        else if tb_looks_like_answer cleaned then
          pure (acc ++ [(qKey frag.1,
            { question_id := qKey frag.1
              question_text := qLabel frag.1
              expected_answer := cleaned
              answer_type := tb_determine_answer_type cleaned
              points := 3 })])
        else pure acc)
    []

/-- TemplateBuilder.extract_template_from_ocr: first pass tracks the
section cursor, the second pass scans for answer patterns, and a result of
fewer than 3 questions is replaced by the fallback extraction. -/
def tb_extract_template_from_ocr (ocr : OcrResult) : Except String Template := do
  let frags := (ocr.rec_texts.zip (ocr.rec_scores.zip ocr.rec_boxes)).enum
  let sectionOpt := tb_first_pass_section (frags.map fun p => p.2.1)
  let t ← tb_second_pass sectionOpt frags
  if t.length < 3 then tb_fallback_answer_extraction frags
  else pure t

instance : IsTotal StudentAnswer topLe :=
  ⟨fun a b => le_total (boxTop a) (boxTop b)⟩

instance : IsTrans StudentAnswer topLe :=
  ⟨fun _ _ _ hab hbc => le_trans hab hbc⟩

/-- A concrete five-question template (witness data). -/
def wTemplate5 : Template :=
  [("q1", ⟨"q1", "t1", "12", "numeric", 2, 1/10, true⟩),
   ("q2", ⟨"q2", "t2", "34", "numeric", 2, 1/10, true⟩),
   ("q3", ⟨"q3", "t3", "56", "numeric", 2, 1/10, true⟩),
   ("q4", ⟨"q4", "t4", "78", "numeric", 2, 1/10, true⟩),
   ("q5", ⟨"q5", "t5", "90", "numeric", 2, 1/10, true⟩)]

/-- A concrete OCR result of which exactly three fragments survive the
candidate filter (witness data). -/
def wOcr3 : OcrResult :=
  ⟨["12", "34", "56"], [9/10, 8/10, 7/10],
   [[0, 10, 5, 15], [0, 20, 5, 25], [0, 30, 5, 35]]⟩

/-- The candidates extracted from the witness OCR result. -/
def wAnswers3 : List StudentAnswer :=
  extract_answers_from_ocr wOcr3

/-- The similarity ratio the dispatcher computes for a formula or a text
question (formula: normalized formulas; text: lowercased raw strings). -/
def similarity_used (ans : StudentAnswer) (q : Question) : ℚ :=
  if q.answer_type = "formula" then
    pyRatio (normalize_formula ans.extracted_text).data
      (normalize_formula q.expected_answer).data
  else
    pyRatio (ans.extracted_text.data.map Char.toLower)
      (q.expected_answer.data.map Char.toLower)

/-- The fixed two-tier credit policy over a similarity value: full points at
0.8, half points at 0.6 when partial credit is enabled, zero otherwise. -/
def tierPoints (p : ℚ) (pc : Bool) (s : ℚ) : ℚ :=
  if 4/5 ≤ s then p
  else if 3/5 ≤ s ∧ pc = true then p * (1/2)
  else 0

/-! ## Helper lemmas -/

theorem tierPoints_mem (p : ℚ) (pc : Bool) (s : ℚ) :
    tierPoints p pc s = 0 ∨ tierPoints p pc s = p * (1/2) ∨ tierPoints p pc s = p := by
  unfold tierPoints
  by_cases h1 : 4/5 ≤ s
  · rw [if_pos h1]
    exact Or.inr (Or.inr rfl)
  · rw [if_neg h1]
    by_cases h2 : 3/5 ≤ s ∧ pc = true
    · rw [if_pos h2]
      exact Or.inr (Or.inl rfl)
    · rw [if_neg h2]
      exact Or.inl rfl

theorem tierPoints_mono (p : ℚ) (hp : 0 < p) (pc : Bool) :
    ∀ s1 s2 : ℚ, s1 ≤ s2 → tierPoints p pc s1 ≤ tierPoints p pc s2 := by
  intro s1 s2 h12
  unfold tierPoints
  by_cases h1 : 4/5 ≤ s1
  · rw [if_pos h1, if_pos (le_trans h1 h12)]
  · rw [if_neg h1]
    by_cases h2 : 3/5 ≤ s1 ∧ pc = true
    · rw [if_pos h2]
      by_cases h3 : 4/5 ≤ s2
      · rw [if_pos h3]
        linarith
      · rw [if_neg h3, if_pos ⟨le_trans h2.1 h12, h2.2⟩]
    · rw [if_neg h2]
      by_cases h3 : 4/5 ≤ s2
      · rw [if_pos h3]
        linarith
      · rw [if_neg h3]
        by_cases h4 : 3/5 ≤ s2 ∧ pc = true
        · rw [if_pos h4]
          linarith
        · rw [if_neg h4]

theorem lookup_eq_none_of_not_mem {β : Type} (k : String) :
    ∀ l : List (String × β), k ∉ l.map Prod.fst → l.lookup k = none := by
  intro l
  induction l with
  | nil => intro _; rfl
  | cons p rest ih =>
    intro hk
    simp only [List.map_cons, List.mem_cons] at hk
    push_neg at hk
    rw [List.lookup]
    have : (k == p.1) = false := by
      simp only [beq_eq_false_iff_ne, ne_eq]
      exact hk.1
    rw [this]
    exact ih hk.2

theorem map_fst_zip_take {α β : Type} :
    ∀ (l1 : List α) (l2 : List β), (l1.zip l2).map Prod.fst = l1.take l2.length := by
  intro l1
  induction l1 with
  | nil => intro l2; simp
  | cons a l1 ih =>
    intro l2
    cases l2 with
    | nil => simp
    | cons b l2 => simp [ih]

theorem firstNumRun_mem : ∀ l r : List Char, firstNumRun l = some r → ∀ c ∈ r, c ∈ l := by
  intro l
  induction l with
  | nil => intro r h; exact absurd h (by simp [firstNumRun])
  | cons a rest ih =>
    intro r h c hc
    rw [firstNumRun] at h
    split at h
    · cases h
      rcases List.mem_cons.mp hc with h1 | h1
      · exact h1 ▸ List.mem_cons_self _ _
      · exact List.mem_cons_of_mem _ ((List.takeWhile_prefix _).subset h1)
    · exact List.mem_cons_of_mem _ (ih r h c hc)

theorem firstNumRun_isSome_of_digit :
    ∀ l : List Char, (∃ c ∈ l, c.isDigit = true) → (firstNumRun l).isSome = true := by
  intro l
  induction l with
  | nil => rintro ⟨c, hc, _⟩; exact absurd hc (List.not_mem_nil c)
  | cons a rest ih =>
    rintro ⟨c, hc, hd⟩
    rw [firstNumRun]
    split
    · rfl
    · rename_i hn
      rcases List.mem_cons.mp hc with h1 | h1
      · exact absurd (show isNumChar a = true by subst h1; simp [isNumChar, hd]) hn
      · exact ih ⟨c, h1, hd⟩

theorem pyFloatOfRun_eq_none_of_no_digit (r : List Char)
    (h : ∀ c ∈ r, c.isDigit = false) : pyFloatOfRun r = none := by
  rw [pyFloatOfRun, if_neg]
  rintro ⟨-, hany⟩
  rcases List.any_eq_true.mp hany with ⟨c, hc, hd⟩
  rw [h c hc] at hd
  exact Bool.false_ne_true hd

theorem grade_answer_numeric (ans : StudentAnswer) (q : Question)
    (hty : q.answer_type = "numeric") :
    grade_answer ans q = grade_numeric_answer ans q (init_result ans q) := by
  unfold grade_answer
  rw [hty]
  simp

theorem grade_formula_spec (ans : StudentAnswer) (q : Question) :
    (grade_formula_answer ans q (init_result ans q)).points_earned =
      tierPoints q.points q.partial_credit
        (pyRatio (normalize_formula ans.extracted_text).data
          (normalize_formula q.expected_answer).data) ∧
    ((grade_formula_answer ans q (init_result ans q)).is_correct = true ↔
      4/5 ≤ pyRatio (normalize_formula ans.extracted_text).data
        (normalize_formula q.expected_answer).data) := by
  simp only [grade_formula_answer, tierPoints]
  by_cases h1 : 4/5 ≤ pyRatio (normalize_formula ans.extracted_text).data
      (normalize_formula q.expected_answer).data
  · rw [if_pos h1, if_pos h1]
    exact ⟨rfl, by simp [h1]⟩
  · rw [if_neg h1, if_neg h1]
    by_cases h2 : 3/5 ≤ pyRatio (normalize_formula ans.extracted_text).data
        (normalize_formula q.expected_answer).data ∧ q.partial_credit = true
    · rw [if_pos h2, if_pos h2]
      exact ⟨rfl, by simp [init_result, h1]⟩
    · rw [if_neg h2, if_neg h2]
      exact ⟨rfl, by simp [init_result, h1]⟩

theorem grade_text_spec (ans : StudentAnswer) (q : Question) :
    (grade_text_answer ans q (init_result ans q)).points_earned =
      tierPoints q.points q.partial_credit
        (pyRatio (ans.extracted_text.data.map Char.toLower)
          (q.expected_answer.data.map Char.toLower)) ∧
    ((grade_text_answer ans q (init_result ans q)).is_correct = true ↔
      4/5 ≤ pyRatio (ans.extracted_text.data.map Char.toLower)
        (q.expected_answer.data.map Char.toLower)) := by
  simp only [grade_text_answer, tierPoints]
  by_cases h1 : 4/5 ≤ pyRatio (ans.extracted_text.data.map Char.toLower)
      (q.expected_answer.data.map Char.toLower)
  · rw [if_pos h1, if_pos h1]
    exact ⟨rfl, by simp [h1]⟩
  · rw [if_neg h1, if_neg h1]
    by_cases h2 : 3/5 ≤ pyRatio (ans.extracted_text.data.map Char.toLower)
        (q.expected_answer.data.map Char.toLower) ∧ q.partial_credit = true
    · rw [if_pos h2, if_pos h2]
      exact ⟨rfl, by simp [init_result, h1]⟩
    · rw [if_neg h2, if_neg h2]
      exact ⟨rfl, by simp [init_result, h1]⟩

theorem tierPoints_bounds (p : ℚ) (hp : 0 < p) (pc : Bool) (s : ℚ) :
    0 ≤ tierPoints p pc s ∧ tierPoints p pc s ≤ p := by
  unfold tierPoints
  by_cases h1 : 4/5 ≤ s
  · rw [if_pos h1]
    exact ⟨le_of_lt hp, le_refl p⟩
  · rw [if_neg h1]
    by_cases h2 : 3/5 ≤ s ∧ pc = true
    · rw [if_pos h2]
      constructor <;> linarith
    · rw [if_neg h2]
      exact ⟨le_refl 0, le_of_lt hp⟩

theorem grade_numeric_earned (ans : StudentAnswer) (q : Question) :
    (grade_numeric_answer ans q (init_result ans q)).points_earned = 0 ∨
    (grade_numeric_answer ans q (init_result ans q)).points_earned = q.points := by
  unfold grade_numeric_answer
  rcases h1 : firstNumRun ans.extracted_text.data with _ | srun
  · simp only [h1]
    exact Or.inl rfl
  · simp only [h1]
    rcases h2 : pyFloatOfRun srun with _ | sv
    · simp only [h2]
      exact Or.inl rfl
    · simp only [h2]
      rcases h3 : firstNumRun q.expected_answer.data with _ | erun
      · simp only [h3]
        exact Or.inl rfl
      · simp only [h3]
        rcases h4 : pyFloatOfRun erun with _ | ev
        · simp only [h4]
          exact Or.inl rfl
        · simp only [h4]
          by_cases h5 : |sv - ev| ≤ q.tolerance
          · rw [if_pos h5]
            exact Or.inr rfl
          · rw [if_neg h5]
            exact Or.inl rfl

theorem grade_general_earned (ans : StudentAnswer) (q : Question) :
    (grade_general_answer ans q (init_result ans q)).points_earned =
      tierPoints q.points q.partial_credit
        (pyRatio ans.extracted_text.data q.expected_answer.data) := by
  simp only [grade_general_answer, tierPoints]
  by_cases h1 : 4/5 ≤ pyRatio ans.extracted_text.data q.expected_answer.data
  · rw [if_pos h1, if_pos h1]
  · rw [if_neg h1, if_neg h1]
    by_cases h2 : 3/5 ≤ pyRatio ans.extracted_text.data q.expected_answer.data ∧
        q.partial_credit = true
    · rw [if_pos h2, if_pos h2]
    · rw [if_neg h2, if_neg h2]
      rfl

theorem grade_answer_earned_bounds (ans : StudentAnswer) (q : Question)
    (hp : 0 < q.points) :
    0 ≤ (grade_answer ans q).points_earned ∧
    (grade_answer ans q).points_earned ≤ q.points := by
  simp only [grade_answer]
  by_cases h1 : q.answer_type = "numeric"
  · rw [if_pos h1]
    rcases grade_numeric_earned ans q with h | h <;> rw [h]
    · exact ⟨le_refl 0, le_of_lt hp⟩
    · exact ⟨le_of_lt hp, le_refl _⟩
  · rw [if_neg h1]
    by_cases h2 : q.answer_type = "formula"
    · rw [if_pos h2, (grade_formula_spec ans q).1]
      exact tierPoints_bounds q.points hp q.partial_credit _
    · rw [if_neg h2]
      by_cases h3 : q.answer_type = "text"
      · rw [if_pos h3, (grade_text_spec ans q).1]
        exact tierPoints_bounds q.points hp q.partial_credit _
      · rw [if_neg h3, grade_general_earned ans q]
        exact tierPoints_bounds q.points hp q.partial_credit _

theorem grade_answer_ft (ans : StudentAnswer) (q : Question)
    (hty : q.answer_type = "formula" ∨ q.answer_type = "text") :
    (grade_answer ans q).points_earned =
      tierPoints q.points q.partial_credit (similarity_used ans q) ∧
    ((grade_answer ans q).is_correct = true ↔ 4/5 ≤ similarity_used ans q) := by
  rcases hty with h | h
  · have hg : grade_answer ans q = grade_formula_answer ans q (init_result ans q) := by
      unfold grade_answer
      rw [h]
      simp
    have hs : similarity_used ans q =
        pyRatio (normalize_formula ans.extracted_text).data
          (normalize_formula q.expected_answer).data := by
      unfold similarity_used
      rw [h]
      simp
    rw [hg, hs]
    exact grade_formula_spec ans q
  · have hg : grade_answer ans q = grade_text_answer ans q (init_result ans q) := by
      unfold grade_answer
      rw [h]
      simp
    have hs : similarity_used ans q =
        pyRatio (ans.extracted_text.data.map Char.toLower)
          (q.expected_answer.data.map Char.toLower) := by
      unfold similarity_used
      rw [h]
      simp
    rw [hg, hs]
    exact grade_text_spec ans q

/-- C2: for a numeric question whose student text and expected answer both
yield a parsed value, the result is full credit and correct exactly under
the tolerance test, and zero credit otherwise - never half credit,
whatever the partial_credit flag. -/
theorem claim2_numeric_tolerance (ans : StudentAnswer) (q : Question) (sv ev : ℚ)
    (hty : q.answer_type = "numeric")
    (hs : parseFirstNumber ans.extracted_text = some sv)
    (he : parseFirstNumber q.expected_answer = some ev) :
    (|sv - ev| ≤ q.tolerance →
      (grade_answer ans q).is_correct = true ∧
      (grade_answer ans q).points_earned = q.points) ∧
    (¬|sv - ev| ≤ q.tolerance →
      (grade_answer ans q).is_correct = false ∧
      (grade_answer ans q).points_earned = 0) := by
  rw [grade_answer_numeric ans q hty]
  unfold parseFirstNumber at hs he
  rcases Option.bind_eq_some.mp hs with ⟨srun, hsr, hsv⟩
  rcases Option.bind_eq_some.mp he with ⟨erun, her, hev⟩
  unfold grade_numeric_answer
  simp only [hsr, hsv, her, hev]
  constructor
  · intro hle
    rw [if_pos hle]
    exact ⟨rfl, rfl⟩
  · intro hnle
    rw [if_neg hnle]
    exact ⟨rfl, rfl⟩

theorem claim2_witness :
    (grade_answer ⟨"a0", "Answer: 7.05", 1, [0, 0, 0, 0], true⟩
      ⟨"1", "t", "7", "numeric", 2, 1/10, true⟩).is_correct = true ∧
    (grade_answer ⟨"a0", "Answer: 7.05", 1, [0, 0, 0, 0], true⟩
      ⟨"1", "t", "7", "numeric", 2, 1/10, true⟩).points_earned = 2 :=
  (claim2_numeric_tolerance _ _ (141/20) 7 rfl (by decide) (by decide)).1
    (by norm_num [abs_le])

/-- C7 counterexample: the numeric values the grader compares are not the
first match of one digit run optionally followed by a period and digits:
on the student text ".5" against expected "0.5" the code parses 1/2 (and
marks the answer correct), while the extraction the claim describes would
read 5 from ".5" and 1/2 from "0.5", which the tolerance test rejects. -/
theorem claim7_counterexample :
    parseFirstNumber ".5" = some (1/2) ∧
    specFirstNumber ".5" = some 5 ∧
    parseFirstNumber ".5" ≠ specFirstNumber ".5" ∧
    (grade_answer ⟨"a0", ".5", 1, [0, 0, 0, 0], true⟩
      ⟨"1", "t", "0.5", "numeric", 2, 1/10, true⟩).is_correct = true ∧
    ¬|(5 : ℚ) - 1/2| ≤ 1/10 := by
  refine ⟨by decide, by decide, by decide, by decide, by norm_num [abs_le]⟩

/-- C7 amended: the values the numeric grader compares are the first
maximal run of digits-and-period characters of each side, parsed under
Python float rules (at most one period, at least one digit); the earned
points and correctness are functions of exactly those two parses. -/
theorem claim7_first_run_parse (ans : StudentAnswer) (q : Question)
    (hty : q.answer_type = "numeric") :
    (grade_answer ans q).points_earned =
      (match parseFirstNumber ans.extracted_text, parseFirstNumber q.expected_answer with
       | some sv, some ev => if |sv - ev| ≤ q.tolerance then q.points else 0
       | _, _ => 0) ∧
    ((grade_answer ans q).is_correct = true ↔
      ∃ sv ev, parseFirstNumber ans.extracted_text = some sv ∧
        parseFirstNumber q.expected_answer = some ev ∧ |sv - ev| ≤ q.tolerance) := by
  rw [grade_answer_numeric ans q hty]
  unfold grade_numeric_answer parseFirstNumber
  rcases hsr : firstNumRun ans.extracted_text.data with _ | srun
  · simp [hsr, init_result]
  · rcases hsv : pyFloatOfRun srun with _ | sv
    · simp [hsr, hsv, init_result]
    · rcases her : firstNumRun q.expected_answer.data with _ | erun
      · simp [hsr, hsv, her, init_result]
      · rcases hev : pyFloatOfRun erun with _ | ev
        · simp [hsr, hsv, her, hev, init_result]
        · simp only [hsr, hsv, her, hev, Option.some_bind, init_result]
          by_cases hle : |sv - ev| ≤ q.tolerance
          · rw [if_pos hle, if_pos hle]
            refine ⟨rfl, ?_, fun _ => rfl⟩
            intro _
            exact ⟨sv, ev, rfl, rfl, hle⟩
          · rw [if_neg hle, if_neg hle]
            refine ⟨rfl, ?_, ?_⟩
            · intro hfalse
              exact absurd hfalse (by simp)
            · rintro ⟨sv2, ev2, h1, h2, hle2⟩
              rw [Option.some_inj] at h1 h2
              subst h1
              subst h2
              exact absurd hle2 hle

theorem claim7_witness :
    (grade_answer ⟨"a1", "x = 1.2.3", 1, [0, 0, 0, 0], true⟩
      ⟨"2", "t", "1.2", "numeric", 4, 1/10, true⟩).points_earned = 0 := by
  have h := (claim7_first_run_parse
    ⟨"a1", "x = 1.2.3", 1, [0, 0, 0, 0], true⟩
    ⟨"2", "t", "1.2", "numeric", 4, 1/10, true⟩ rfl).1
  rw [h]
  decide

/-- C10: a numeric question whose expected answer holds no digit can never
be answered correctly - every candidate earns zero and is marked
incorrect, and a candidate whose text does hold a digit reaches the
expected-side lookup or parse, which fails and is recovered as the single
feedback line "Could not parse numeric answer". -/
theorem claim10_digitless_expected (ans : StudentAnswer) (q : Question)
    (hty : q.answer_type = "numeric")
    (hnd : ∀ c ∈ q.expected_answer.data, c.isDigit = false) :
    (grade_answer ans q).points_earned = 0 ∧
    (grade_answer ans q).is_correct = false ∧
    ((∃ c ∈ ans.extracted_text.data, c.isDigit = true) →
      (grade_answer ans q).feedback = ["Could not parse numeric answer"]) := by
  rw [grade_answer_numeric ans q hty]
  unfold grade_numeric_answer
  rcases hsr : firstNumRun ans.extracted_text.data with _ | srun
  · simp only [hsr]
    refine ⟨rfl, rfl, ?_⟩
    intro hdig
    have hsome := firstNumRun_isSome_of_digit _ hdig
    rw [hsr] at hsome
    exact absurd hsome (by simp)
  · simp only [hsr]
    rcases hsv : pyFloatOfRun srun with _ | sv
    · simp only [hsv]
      exact ⟨rfl, rfl, fun _ => rfl⟩
    · simp only [hsv]
      rcases her : firstNumRun q.expected_answer.data with _ | erun
      · simp only [her]
        exact ⟨rfl, rfl, fun _ => rfl⟩
      · simp only [her]
        have hnone : pyFloatOfRun erun = none :=
          pyFloatOfRun_eq_none_of_no_digit erun
            fun c hc => hnd c (firstNumRun_mem _ _ her c hc)
        simp only [hnone]
        exact ⟨rfl, rfl, fun _ => rfl⟩

/-- C5: over a template whose questions all carry positive points, a grading
run satisfies 0 <= total_score <= max_score, total_score is the sum of the
earned points of the question results, max_score the sum of the template's
points, and overall_accuracy is total/max when the maximum is positive and
0 when it is 0. -/
theorem claim5_score_bounds (template : Template) (sid : String) (ocr : OcrResult)
    (hp : ∀ p ∈ template, 0 < p.2.points) :
    0 ≤ (grade_homework template sid ocr).total_score ∧
    (grade_homework template sid ocr).total_score ≤
      (grade_homework template sid ocr).max_score ∧
    (grade_homework template sid ocr).total_score =
      ((grade_homework template sid ocr).question_results.map
        QuestionResult.points_earned).sum ∧
    (grade_homework template sid ocr).max_score =
      (template.map fun p => p.2.points).sum ∧
    (0 < (grade_homework template sid ocr).max_score →
      (grade_homework template sid ocr).overall_accuracy =
        (grade_homework template sid ocr).total_score /
          (grade_homework template sid ocr).max_score) ∧
    ((grade_homework template sid ocr).max_score = 0 →
      (grade_homework template sid ocr).overall_accuracy = 0) := by
  simp only [grade_homework]
  refine ⟨?_, ?_, trivial, trivial, ?_, ?_⟩
  · apply List.sum_nonneg
    intro x hx
    rw [List.map_map] at hx
    obtain ⟨p, hp2, rfl⟩ := List.mem_map.mp hx
    simp only [Function.comp_apply]
    cases hl : (align_answers_with_questions (extract_answers_from_ocr ocr)
        template).lookup p.1 with
    | none =>
      simp [hl, no_answer_result]
    | some a =>
      simp only [hl]
      exact (grade_answer_earned_bounds a p.2 (hp p hp2)).1
  · rw [List.map_map]
    apply List.sum_le_sum
    intro p hp2
    simp only [Function.comp_apply]
    cases hl : (align_answers_with_questions (extract_answers_from_ocr ocr)
        template).lookup p.1 with
    | none =>
      simp only [hl, no_answer_result]
      exact le_of_lt (hp p hp2)
    | some a =>
      simp only [hl]
      exact (grade_answer_earned_bounds a p.2 (hp p hp2)).2
  · intro h
    rw [if_pos h]
  · intro h
    rw [if_neg (by rw [h]; exact lt_irrefl 0)]

theorem claim5_witness :
    0 ≤ (grade_homework wTemplate5 "s1" wOcr3).total_score ∧
    (grade_homework wTemplate5 "s1" wOcr3).total_score ≤
      (grade_homework wTemplate5 "s1" wOcr3).max_score := by
  have h := claim5_score_bounds wTemplate5 "s1" wOcr3 (by decide)
  exact ⟨h.1, h.2.1⟩

/-- C6: a template question with no aligned candidate is graded as the
sentinel result: zero points, not correct, student answer "No answer found"
and the single feedback line "No answer detected". -/
theorem claim6_missing_answer (template : Template) (sid : String) (ocr : OcrResult)
    (i : ℕ) (hi : i < template.length)
    (hnone : (align_answers_with_questions (extract_answers_from_ocr ocr)
      template).lookup (template.getD i default).1 = none) :
    ((grade_homework template sid ocr).question_results.getD i default).points_earned = 0 ∧
    ((grade_homework template sid ocr).question_results.getD i default).is_correct = false ∧
    ((grade_homework template sid ocr).question_results.getD i default).student_answer =
      "No answer found" ∧
    ((grade_homework template sid ocr).question_results.getD i default).feedback =
      ["No answer detected"] := by
  rw [List.getD_eq_getElem _ _ hi] at hnone
  simp only [grade_homework]
  have hlen : i < (template.map fun p =>
      match (align_answers_with_questions (extract_answers_from_ocr ocr)
        template).lookup p.1 with
      | some a => grade_answer a p.2
      | none => no_answer_result p.1 p.2).length := by
    rw [List.length_map]
    exact hi
  rw [List.getD_eq_getElem _ _ hlen, List.getElem_map]
  simp only [hnone, no_answer_result]
  exact ⟨trivial, trivial, trivial, trivial⟩

theorem claim6_witness :
    ((grade_homework wTemplate5 "s1" wOcr3).question_results.filter
      fun r => r.student_answer == "No answer found").length = 2 ∧
    ((grade_homework wTemplate5 "s1" wOcr3).question_results.getD 3
      default).points_earned = 0 ∧
    ((grade_homework wTemplate5 "s1" wOcr3).question_results.getD 3
      default).student_answer = "No answer found" := by
  have h := claim6_missing_answer wTemplate5 "s1" wOcr3 3 (by decide) (by decide)
  exact ⟨by decide, h.1, h.2.2.1⟩

/-- The fold of batch_grade equals a filterMap no matter the accumulator. -/
theorem batch_foldl_eq (template : Option Template) :
    ∀ (files : List (String × Except String OcrResult)) (acc : List GradingResult),
      files.foldl (fun results file =>
        match grade_one_file template file with
        | none => results
        | some r => results ++ [r]) acc =
      acc ++ files.filterMap (grade_one_file template) := by
  intro files
  induction files with
  | nil =>
    intro acc
    simp
  | cons f rest ih =>
    intro acc
    rw [List.foldl_cons, List.filterMap_cons]
    cases hg : grade_one_file template f with
    | none =>
      simp only [hg]
      exact ih acc
    | some r =>
      simp only [hg]
      rw [ih (acc ++ [r]), List.append_assoc]
      rfl

/-- C9: batch grading keeps exactly the students whose load-and-grade
pipeline succeeds: the result list is the filterMap of the per-file body, a
file whose load raises is dropped without affecting the rest of the batch,
and every reported result comes from some successfully processed file - no
partial or sentinel entry is recorded for a failure. -/
theorem claim9_batch_isolation (template : Option Template)
    (files : List (String × Except String OcrResult)) :
    batch_grade template files = files.filterMap (grade_one_file template) ∧
    (∀ (pre post : List (String × Except String OcrResult)) (stem err : String),
      batch_grade template (pre ++ (stem, Except.error err) :: post) =
        batch_grade template (pre ++ post)) ∧
    (∀ r ∈ batch_grade template files,
      ∃ file ∈ files, grade_one_file template file = some r) := by
  have hmain : ∀ fs : List (String × Except String OcrResult),
      batch_grade template fs = fs.filterMap (grade_one_file template) := by
    intro fs
    unfold batch_grade
    rw [batch_foldl_eq template fs []]
    exact List.nil_append _
  refine ⟨hmain files, ?_, ?_⟩
  · intro pre post stem err
    rw [hmain, hmain, List.filterMap_append, List.filterMap_append,
      List.filterMap_cons]
    have herr : grade_one_file template (stem, Except.error err) = none := by
      unfold grade_one_file
      split
      · rfl
      · rfl
    rw [herr]
  · intro r hr
    rw [hmain] at hr
    exact List.mem_filterMap.mp hr

theorem claim9_witness :
    batch_grade (some wTemplate5)
        [("hw_2_res", Except.ok wOcr3), ("hw_9_res", Except.error "bad file")] =
      [("hw_2_res", Except.ok wOcr3),
       ("hw_9_res", Except.error "bad file")].filterMap
        (grade_one_file (some wTemplate5)) ∧
    batch_grade (some wTemplate5)
        ([("hw_2_res", Except.ok wOcr3)] ++
          ("hw_9_res", Except.error "bad file") :: []) =
      batch_grade (some wTemplate5) ([("hw_2_res", Except.ok wOcr3)] ++ []) :=
  ⟨(claim9_batch_isolation (some wTemplate5)
      [("hw_2_res", Except.ok wOcr3), ("hw_9_res", Except.error "bad file")]).1,
   (claim9_batch_isolation (some wTemplate5)
      [("hw_2_res", Except.ok wOcr3), ("hw_9_res", Except.error "bad file")]).2.1
     [("hw_2_res", Except.ok wOcr3)] [] "hw_9_res" "bad file"⟩

/-- C4: alignment sorts candidates by the top coordinate of their bounding
box ascending and zips them positionally with the template's question ids:
the mapping has exactly min(candidates, template) entries, every key is a
template question id and every value a candidate, the i-th entry pairs the
i-th question id with the i-th sorted candidate, and (for a template with
distinct ids) question ids beyond the candidate count are absent. -/
theorem claim4_alignment (answers : List StudentAnswer) (template : Template)
    (hnd : (template.map Prod.fst).Nodup) :
    (align_answers_with_questions answers template).length =
      min answers.length template.length ∧
    (∀ p ∈ align_answers_with_questions answers template,
      p.1 ∈ template.map Prod.fst ∧ p.2 ∈ answers) ∧
    (answers.insertionSort topLe).Perm answers ∧
    List.Sorted topLe (answers.insertionSort topLe) ∧
    (∀ (i : ℕ), i < (align_answers_with_questions answers template).length →
      (align_answers_with_questions answers template).getD i default =
        ((template.map Prod.fst).getD i default,
         (answers.insertionSort topLe).getD i default)) ∧
    (∀ i : ℕ, i < template.length → answers.length ≤ i →
      (align_answers_with_questions answers template).lookup
        ((template.map Prod.fst).getD i default) = none) := by
  have hperm := List.perm_insertionSort topLe answers
  have hsortlen : (answers.insertionSort topLe).length = answers.length :=
    List.length_insertionSort topLe answers
  refine ⟨?_, ?_, hperm, List.sorted_insertionSort topLe answers, ?_, ?_⟩
  · simp only [align_answers_with_questions, List.length_zip, List.length_map,
      hsortlen]
    omega
  · rintro ⟨a, b⟩ hp
    simp only [align_answers_with_questions] at hp
    obtain ⟨h1, h2⟩ := List.of_mem_zip hp
    exact ⟨h1, hperm.subset h2⟩
  · intro i hi
    simp only [align_answers_with_questions, List.length_zip, List.length_map,
      hsortlen] at hi
    have hq : i < (template.map Prod.fst).length := by
      simp only [List.length_map]
      omega
    have hs : i < (answers.insertionSort topLe).length := by
      rw [hsortlen]
      omega
    rw [align_answers_with_questions,
      List.getD_eq_getElem _ _ (by rw [List.length_zip]; omega),
      List.getElem_zip,
      List.getD_eq_getElem _ _ hq, List.getD_eq_getElem _ _ hs]
  · intro i hi hlen
    apply lookup_eq_none_of_not_mem
    intro hmem
    rw [align_answers_with_questions, map_fst_zip_take, hsortlen] at hmem
    have hq : i < (template.map Prod.fst).length := by
      simp only [List.length_map]
      omega
    rw [List.getD_eq_getElem _ _ hq] at hmem
    obtain ⟨j, hj, hje⟩ := List.mem_iff_getElem.mp hmem
    have hjlen : j < answers.length := by
      have := hj
      rw [List.length_take] at this
      omega
    rw [List.getElem_take] at hje
    have hji : j = i := (List.Nodup.getElem_inj_iff hnd).mp hje
    omega

theorem claim4_witness :
    (align_answers_with_questions wAnswers3 wTemplate5).length =
      min wAnswers3.length wTemplate5.length ∧
    (align_answers_with_questions wAnswers3 wTemplate5).lookup
      ((wTemplate5.map Prod.fst).getD 4 default) = none := by
  refine ⟨(claim4_alignment wAnswers3 wTemplate5 (by decide)).1, ?_⟩
  exact (claim4_alignment wAnswers3 wTemplate5 (by decide)).2.2.2.2.2 4
    (by decide) (by decide)

/-- C3: a formula or text question is graded on exactly three tiers - full
credit and correct at ratio 0.8, half credit and not correct at ratio 0.6
with partial credit enabled, zero otherwise - so the earned points always
lie in the set of 0, half the points and the points, and are monotone
non-decreasing in the similarity ratio for a fixed question. -/
theorem claim3_similarity_tiers (ans : StudentAnswer) (q : Question)
    (hty : q.answer_type = "formula" ∨ q.answer_type = "text")
    (hp : 0 < q.points) :
    ((grade_answer ans q).points_earned = 0 ∨
      (grade_answer ans q).points_earned = q.points * (1/2) ∨
      (grade_answer ans q).points_earned = q.points) ∧
    (grade_answer ans q).points_earned =
      tierPoints q.points q.partial_credit (similarity_used ans q) ∧
    (4/5 ≤ similarity_used ans q →
      (grade_answer ans q).is_correct = true ∧
      (grade_answer ans q).points_earned = q.points) ∧
    (similarity_used ans q < 4/5 → 3/5 ≤ similarity_used ans q →
      q.partial_credit = true →
      (grade_answer ans q).is_correct = false ∧
      (grade_answer ans q).points_earned = q.points * (1/2)) ∧
    (similarity_used ans q < 4/5 →
      ¬(3/5 ≤ similarity_used ans q ∧ q.partial_credit = true) →
      (grade_answer ans q).is_correct = false ∧
      (grade_answer ans q).points_earned = 0) ∧
    (∀ ans2 : StudentAnswer,
      similarity_used ans q ≤ similarity_used ans2 q →
      (grade_answer ans q).points_earned ≤ (grade_answer ans2 q).points_earned) := by
  obtain ⟨hpe, hic⟩ := grade_answer_ft ans q hty
  have hfalse : ¬(4/5 ≤ similarity_used ans q) →
      (grade_answer ans q).is_correct = false := by
    intro hnot
    exact Bool.eq_false_iff.mpr fun hh => hnot (hic.mp hh)
  refine ⟨?_, hpe, ?_, ?_, ?_, ?_⟩
  · rw [hpe]
    exact tierPoints_mem q.points q.partial_credit (similarity_used ans q)
  · intro h1
    refine ⟨hic.mpr h1, ?_⟩
    rw [hpe]
    unfold tierPoints
    rw [if_pos h1]
  · intro h1 h2 h3
    refine ⟨hfalse (not_le.mpr h1), ?_⟩
    rw [hpe]
    unfold tierPoints
    rw [if_neg (not_le.mpr h1), if_pos ⟨h2, h3⟩]
  · intro h1 h2
    refine ⟨hfalse (not_le.mpr h1), ?_⟩
    rw [hpe]
    unfold tierPoints
    rw [if_neg (not_le.mpr h1), if_neg h2]
  · intro ans2 hs
    obtain ⟨hpe2, -⟩ := grade_answer_ft ans2 q hty
    rw [hpe, hpe2]
    exact tierPoints_mono q.points hp q.partial_credit _ _ hs

theorem claim3_witness :
    (grade_answer ⟨"a3", "a:b=5:4", 1, [0, 0, 0, 0], true⟩
      ⟨"1.3", "t", "a:b=5:4", "formula", 3, 1/10, true⟩).is_correct = true ∧
    (grade_answer ⟨"a3", "a:b=5:4", 1, [0, 0, 0, 0], true⟩
      ⟨"1.3", "t", "a:b=5:4", "formula", 3, 1/10, true⟩).points_earned = 3 := by
  have h := (claim3_similarity_tiers
    ⟨"a3", "a:b=5:4", 1, [0, 0, 0, 0], true⟩
    ⟨"1.3", "t", "a:b=5:4", "formula", 3, 1/10, true⟩
    (Or.inl rfl) (by norm_num)).2.2.1 (by decide)
  exact ⟨h.1, h.2⟩

/-- C8: the candidate filter rejects any fragment whose cleaned text holds a
question-marker substring, whatever its length or digit content; a fragment
of cleaned length at least 2 with no marker is accepted exactly when its
cleaned text is built entirely of digit-and-symbol characters, or has length
at most 10 and holds at least one digit. -/
theorem claim8_candidate_filter (i : ℕ) (text : String) (score : ℚ) (box : List ℤ) :
    (is_question_text (clean_text text) = true →
      candidate_of i text score box = none) ∧
    (2 ≤ (clean_text text).length → is_question_text (clean_text text) = false →
      ((candidate_of i text score box).isSome = true ↔
        ((clean_text text).data ≠ [] ∧
          ∀ c ∈ (clean_text text).data, isAnswerSymbol c = true) ∨
        ((clean_text text).length ≤ 10 ∧
          ∃ c ∈ (clean_text text).data, c.isDigit = true))) := by
  constructor
  · intro hq
    unfold candidate_of
    rw [if_pos (Or.inr hq)]
  · intro hlen hq
    unfold candidate_of
    rw [if_neg (by
      rintro (h | h)
      · omega
      · rw [hq] at h
        exact Bool.false_ne_true h)]
    have hiff : looks_like_answer (clean_text text) = true ↔
        ((clean_text text).data ≠ [] ∧
          ∀ c ∈ (clean_text text).data, isAnswerSymbol c = true) ∨
        ((clean_text text).length ≤ 10 ∧
          ∃ c ∈ (clean_text text).data, c.isDigit = true) := by
      unfold looks_like_answer
      simp [List.all_eq_true, List.any_eq_true, List.isEmpty_iff]
    cases hb : looks_like_answer (clean_text text) with
    | true =>
      rw [if_pos rfl]
      simp only [Option.isSome_some, true_iff]
      exact hiff.mp hb
    | false =>
      rw [if_neg Bool.false_ne_true]
      simp only [Option.isSome_none]
      constructor
      · intro h
        exact absurd h (by simp)
      · intro h
        rw [hiff.mpr h] at hb
        exact absurd hb (by simp)

theorem claim8_witness :
    candidate_of 0 "填空(1) 12" 1 [0, 0, 0, 0] = none ∧
    (candidate_of 1 "24" 1 [0, 0, 0, 0]).isSome = true := by
  constructor
  · exact (claim8_candidate_filter 0 "填空(1) 12" 1 [0, 0, 0, 0]).1 (by decide)
  · exact ((claim8_candidate_filter 1 "24" 1 [0, 0, 0, 0]).2
      (by decide) (by decide)).mpr (by decide)

/-- C1 (code bug): template extraction does not complete for any nonempty
fragment sequence - the second pass evaluates the undefined
self._is_question_text on its first fragment before anything else can
happen, and the AttributeError propagates to the caller instead of the
claimed small-or-empty template; here evaluated on a one-fragment input. -/
theorem claim1_attribute_error :
    tb_extract_template_from_ocr ⟨["7"], [9/10], [[0, 0, 10, 10]]⟩ =
      Except.error
        "AttributeError: TemplateBuilder object has no attribute _is_question_text" := by
  rfl

theorem claim10_witness :
    (grade_answer ⟨"a2", "7x", 1, [0, 0, 0, 0], true⟩
      ⟨"3", "t", "abc", "numeric", 2, 1/10, true⟩).points_earned = 0 ∧
    (grade_answer ⟨"a2", "7x", 1, [0, 0, 0, 0], true⟩
      ⟨"3", "t", "abc", "numeric", 2, 1/10, true⟩).is_correct = false ∧
    (grade_answer ⟨"a2", "7x", 1, [0, 0, 0, 0], true⟩
      ⟨"3", "t", "abc", "numeric", 2, 1/10, true⟩).feedback =
      ["Could not parse numeric answer"] := by
  have h := claim10_digitless_expected
    ⟨"a2", "7x", 1, [0, 0, 0, 0], true⟩
    ⟨"3", "t", "abc", "numeric", 2, 1/10, true⟩ rfl (by decide)
  exact ⟨h.1, h.2.1, h.2.2 (by decide)⟩

end GradingSys
